import Mathlib

/-!
Verification of `src/library/process/src/nativeInterop/cinterop/kmp_process_sys.h`
from the kmp-process repository.

The header consists entirely of C-preprocessor conditional structure around a
single function declaration:

  #ifndef KMP_PROCESS_SYS_H
  #define KMP_PROCESS_SYS_H
  #ifdef __ANDROID__
  int __SYS_pipe2();
  #endif
  #endif

We embed the header as a list of preprocessing lines and give a small
operational model of the relevant fragment of the C preprocessor: a state of
currently-defined object-like names, a stack of conditional-group guards, and
the items emitted into the translation unit. Link-time resolution and the
run-time behaviour of a call through the declaration are not part of the
repository source; where a claim needs them they are modelled from the spec
and marked as such.
-/

/-- A C function declaration as it appears in the source: return type token,
function name, and the syntactic list of parameter tokens between the
parentheses (empty in the source: `int __SYS_pipe2();`). -/
structure FunDecl where
  retType : String
  name : String
  params : List String
deriving DecidableEq, Repr

/-- File-scope items a preprocessed translation unit can contain in this
model: a function declaration (compile/link-time visibility only), or an
object definition with an initializer (which occupies storage when the
program is loaded and run). The header contains only the former; the latter
exists so that "no run-time effect" is a real property of the header rather
than of the model. -/
inductive TUItem where
  | funDecl (d : FunDecl)
  | objDef (name : String) (init : Int)
deriving DecidableEq, Repr

/-- Lines of a header as seen by the preprocessor: `#ifndef M`, `#ifdef M`,
`#define M`, `#endif`, or an ordinary source line carrying an item. -/
inductive PPLine where
  | ifndefD (m : String)
  | ifdefD (m : String)
  | defineD (m : String)
  | endifD
  | text (it : TUItem)
deriving DecidableEq, Repr

/-- The declaration on line 22 of the source header: `int __SYS_pipe2();`. -/
def pipe2Decl : FunDecl :=
  { retType := "int", name := "__SYS_pipe2", params := [] }

/-- The contents of `kmp_process_sys.h` (lines 18 to 25 of the source file),
one list entry per preprocessing-relevant line, in source order. -/
def kmp_process_sys_h : List PPLine :=
  [ PPLine.ifndefD "KMP_PROCESS_SYS_H",
    PPLine.defineD "KMP_PROCESS_SYS_H",
    PPLine.ifdefD "__ANDROID__",
    PPLine.text (TUItem.funDecl pipe2Decl),
    PPLine.endifD,
    PPLine.endifD ]

/-- One pass of the C preprocessor over a list of lines. `defs` is the list
of names currently defined, `stack` the stack of conditional-group guards
(innermost first). A source line is emitted, and a define takes effect, only
when every enclosing guard holds. Returns the defined-name state after the
pass together with the emitted items, in order. -/
def ppRun : List PPLine → List String → List Bool → List String × List TUItem
  | [], defs, _ => (defs, [])
  | PPLine.ifndefD m :: rest, defs, stack =>
      ppRun rest defs ((!defs.contains m) :: stack)
  | PPLine.ifdefD m :: rest, defs, stack =>
      ppRun rest defs (defs.contains m :: stack)
  | PPLine.endifD :: rest, defs, stack =>
      ppRun rest defs stack.tail
  | PPLine.defineD m :: rest, defs, stack =>
      if stack.all (fun b => b) then ppRun rest (m :: defs) stack
      else ppRun rest defs stack
  | PPLine.text it :: rest, defs, stack =>
      let r := ppRun rest defs stack
      if stack.all (fun b => b) then (r.1, it :: r.2) else r

/-- The effect of one inclusion of `kmp_process_sys.h` on a translation unit
whose defined-name state is `defs`: the defined-name state afterwards and the
items the inclusion contributes to the translation unit. -/
def includeHeader (defs : List String) : List String × List TUItem :=
  ppRun kmp_process_sys_h defs []

/-- Two consecutive inclusions of the header within one translation unit:
the second inclusion starts from the defined-name state the first one left,
and the contributed items are concatenated. -/
def includeHeaderTwice (defs : List String) : List String × List TUItem :=
  ((includeHeader (includeHeader defs).1).1,
    (includeHeader defs).2 ++ (includeHeader (includeHeader defs).1).2)

/-- The function names a list of translation-unit items declares. -/
def declaredNames (items : List TUItem) : List String :=
  items.filterMap fun it =>
    match it with
    | TUItem.funDecl d => some d.name
    | TUItem.objDef _ _ => none

theorem includeHeader_eq (defs : List String) :
    includeHeader defs =
      if defs.contains "KMP_PROCESS_SYS_H" then (defs, [])
      else ("KMP_PROCESS_SYS_H" :: defs,
        if defs.contains "__ANDROID__" then [TUItem.funDecl pipe2Decl] else []) := by
  by_cases hg : "KMP_PROCESS_SYS_H" ∈ defs <;>
    by_cases ha : "__ANDROID__" ∈ defs <;>
      simp [includeHeader, kmp_process_sys_h, ppRun, hg, ha]

/-- Loading one translation-unit item into the program's run-time state (the
list of allocated objects with their values): a function declaration has no
run-time footprint, while an object definition allocates. -/
def loadItem : TUItem → List (String × Int) → List (String × Int)
  | TUItem.funDecl _, s => s
  | TUItem.objDef n v, s => (n, v) :: s

/-- Loading a list of translation-unit items into the run-time state, in
order. -/
def loadTU (items : List TUItem) (s : List (String × Int)) : List (String × Int) :=
  items.foldl (fun st it => loadItem it st) s

/-- The build-configuration axis the header conditions on: the guarded
platform (the toolchain defines `__ANDROID__`) or any other platform. -/
inductive BuildPlatform where
  | android
  | other
deriving DecidableEq, Repr

/-- The toolchain-provided defined names relevant to this header for a fresh
translation unit on each platform; the platform identifier is the sole
toolchain input the header reads. -/
def platformDefs : BuildPlatform → List String
  | BuildPlatform.android => ["__ANDROID__"]
  | BuildPlatform.other => []

/-- Each platform's declaration set inside the header: the guarded platform
owns the single `__SYS_pipe2` declaration, every other platform owns the
empty set. -/
def platformDecls : BuildPlatform → List TUItem
  | BuildPlatform.android => [TUItem.funDecl pipe2Decl]
  | BuildPlatform.other => []

/-- Modelled from the spec: the outcome of link-time resolution, which is
performed by the platform toolchain and is not part of this repository:
either success, or an unresolved-symbol error naming the offending symbol —
the spec's sole failure class. -/
inductive LinkResult where
  | success
  | unresolvedSymbol (name : String)
deriving DecidableEq, Repr

/-- Modelled from the spec: link-time resolution, "the build step that binds
a declared-but-undefined symbol to its actual implementation supplied by the
runtime environment". Each undefined reference must be exported by the
runtime; the first one the runtime lacks aborts the link with an
unresolved-symbol error. -/
def link : List String → List String → LinkResult
  | [], _ => LinkResult.success
  | r :: rest, exported =>
      if exported.contains r then link rest exported
      else LinkResult.unresolvedSymbol r

/-- Modelled from the spec: the run-time behaviour of a call through the
declaration, which is supplied by the linked runtime and not by this
repository. A (stub) runtime is a table from symbol name to the integer its
implementation returns; invoking a symbol returns its table entry. -/
def invokeSymbol : List (String × Int) → String → Option Int
  | [], _ => none
  | (n, v) :: rest, name => if n = name then some v else invokeSymbol rest name

theorem guard_defined_after (defs : List String) :
    "KMP_PROCESS_SYS_H" ∈ (includeHeader defs).1 := by
  rw [includeHeader_eq]
  by_cases hg : "KMP_PROCESS_SYS_H" ∈ defs <;> simp [hg]

theorem include_after_guard (defs : List String)
    (h : "KMP_PROCESS_SYS_H" ∈ defs) :
    includeHeader defs = (defs, []) := by
  rw [includeHeader_eq]
  simp [h]

/-- C1: on every compilation where the platform identifier `__ANDROID__` is
not defined, preprocessing the header yields no declaration of `__SYS_pipe2`:
the symbol name is entirely absent from the contributed interface. -/
theorem c1_pipe2_absent_without_android (defs : List String)
    (h : "__ANDROID__" ∉ defs) :
    "__SYS_pipe2" ∉ declaredNames (includeHeader defs).2 := by
  rw [includeHeader_eq]
  by_cases hg : "KMP_PROCESS_SYS_H" ∈ defs <;> simp [hg, h, declaredNames]

/-- Witness for C1: a non-guarded build with an empty defined-name state. -/
theorem c1_pipe2_absent_without_android_witness :
    "__ANDROID__" ∉ ([] : List String) ∧
      "__SYS_pipe2" ∉ declaredNames (includeHeader []).2 :=
  ⟨by decide, c1_pipe2_absent_without_android [] (by decide)⟩

/-- C2: on the guarded platform, including the header a second time within
the same translation unit is a no-op: two inclusions leave the same
defined-name state and contribute the same items as a single inclusion. -/
theorem c2_include_twice_eq_once_on_android (defs : List String)
    (h : "__ANDROID__" ∈ defs) :
    includeHeaderTwice defs = includeHeader defs := by
  unfold includeHeaderTwice
  rw [include_after_guard _ (guard_defined_after defs)]
  simp

/-- Witness for C2: the guarded platform's fresh defined-name state. -/
theorem c2_include_twice_eq_once_on_android_witness :
    "__ANDROID__" ∈ ["__ANDROID__"] ∧
      includeHeaderTwice ["__ANDROID__"] = includeHeader ["__ANDROID__"] :=
  ⟨by decide, c2_include_twice_eq_once_on_android ["__ANDROID__"] (by decide)⟩

/-- C3: the header binds exactly one function signature — name `__SYS_pipe2`,
empty parameter list, integer return type — and in a fresh translation unit
that binding is contributed exactly when the single platform identifier
`__ANDROID__` is defined. -/
theorem c3_single_signature (defs : List String)
    (h : "KMP_PROCESS_SYS_H" ∉ defs) :
    (includeHeader defs).2 =
      (if "__ANDROID__" ∈ defs then [TUItem.funDecl pipe2Decl] else []) ∧
      pipe2Decl.name = "__SYS_pipe2" ∧
      pipe2Decl.params = [] ∧
      pipe2Decl.retType = "int" := by
  refine ⟨?_, rfl, rfl, rfl⟩
  rw [includeHeader_eq]
  by_cases ha : "__ANDROID__" ∈ defs <;> simp [h, ha]

/-- Witness for C3: the guarded platform's fresh defined-name state. -/
theorem c3_single_signature_witness :
    "KMP_PROCESS_SYS_H" ∉ ["__ANDROID__"] ∧
      ((includeHeader ["__ANDROID__"]).2 =
        (if "__ANDROID__" ∈ ["__ANDROID__"] then [TUItem.funDecl pipe2Decl] else []) ∧
        pipe2Decl.name = "__SYS_pipe2" ∧
        pipe2Decl.params = [] ∧
        pipe2Decl.retType = "int") :=
  ⟨by decide, c3_single_signature ["__ANDROID__"] (by decide)⟩

/-- C4: exclusivity of the platform-conditional axis: on every build
platform, the items the header makes visible are exactly that platform's own
declaration set, and they coincide with no other platform's set — exactly one
platform's declarations are visible per build, never two and never zero. -/
theorem c4_platform_exclusivity (p : BuildPlatform) :
    (includeHeader (platformDefs p)).2 = platformDecls p ∧
      ∀ q : BuildPlatform,
        (includeHeader (platformDefs p)).2 = platformDecls q → q = p := by
  refine ⟨by cases p <;> rfl, ?_⟩
  intro q hq
  cases p <;> cases q
  · rfl
  · exact absurd hq (by decide)
  · exact absurd hq (by decide)
  · rfl

/-- C5: for a program on the guarded platform whose undefined references are
exactly the names the header declares, linking succeeds precisely when the
runtime exports `__SYS_pipe2`; when the runtime lacks it, the link fails with
an unresolved-symbol error for that name, which is the model's only failure
class. -/
theorem c5_link_iff_runtime_exports (exported : List String) :
    link (declaredNames (includeHeader ["__ANDROID__"]).2) exported =
      if exported.contains "__SYS_pipe2" then LinkResult.success
      else LinkResult.unresolvedSymbol "__SYS_pipe2" := by
  have h : declaredNames (includeHeader ["__ANDROID__"]).2 = ["__SYS_pipe2"] := rfl
  rw [h]
  by_cases he : exported.contains "__SYS_pipe2" <;> simp [link, he]

/-- C6: whatever implementation the runtime supplies for the declared symbol,
a caller invoking it through the declaration observes exactly the integer
that implementation returns; the declaration never alters the value (a stub
returning 0 makes the caller observe 0). -/
theorem c6_caller_observes_impl_value (rt : List (String × Int)) (v : Int) :
    invokeSymbol ((pipe2Decl.name, v) :: rt) pipe2Decl.name = some v := by
  simp [invokeSymbol]

/-- C7: including the header has no run-time effect on any platform: loading
the items it contributes leaves every run-time state unchanged, because it
contributes declarations only and a declaration has no run-time footprint. -/
theorem c7_no_runtime_effect (defs : List String) (s : List (String × Int)) :
    loadTU (includeHeader defs).2 s = s := by
  rw [includeHeader_eq]
  by_cases hg : "KMP_PROCESS_SYS_H" ∈ defs <;>
    by_cases ha : "__ANDROID__" ∈ defs <;>
      simp [hg, ha, loadTU, loadItem]

/-- C8: on every platform, guarded or not, an inclusion leaves the
include-guard name `KMP_PROCESS_SYS_H` defined, so a repeated inclusion is a
no-op unconditionally, not only on the guarded platform. -/
theorem c8_idempotent_on_all_platforms (defs : List String) :
    "KMP_PROCESS_SYS_H" ∈ (includeHeader defs).1 ∧
      includeHeaderTwice defs = includeHeader defs := by
  refine ⟨guard_defined_after defs, ?_⟩
  unfold includeHeaderTwice
  rw [include_after_guard _ (guard_defined_after defs)]
  simp

/-- C9: the items the header contributes are a function of exactly two
predicates — whether `__ANDROID__` is defined and whether
`KMP_PROCESS_SYS_H` is defined: any two defined-name states that agree on
those two contribute identical items, so no other build input influences the
result. -/
theorem c9_output_determined_by_two_flags (defs1 defs2 : List String)
    (ha : ("__ANDROID__" ∈ defs1) ↔ ("__ANDROID__" ∈ defs2))
    (hg : ("KMP_PROCESS_SYS_H" ∈ defs1) ↔ ("KMP_PROCESS_SYS_H" ∈ defs2)) :
    (includeHeader defs1).2 = (includeHeader defs2).2 := by
  rw [includeHeader_eq, includeHeader_eq]
  by_cases h1 : "KMP_PROCESS_SYS_H" ∈ defs1
  · have h1' : "KMP_PROCESS_SYS_H" ∈ defs2 := hg.mp h1
    simp [h1, h1']
  · have h1' : "KMP_PROCESS_SYS_H" ∉ defs2 := fun hh => h1 (hg.mpr hh)
    by_cases h2 : "__ANDROID__" ∈ defs1
    · have h2' : "__ANDROID__" ∈ defs2 := ha.mp h2
      simp [h1, h1', h2, h2']
    · have h2' : "__ANDROID__" ∉ defs2 := fun hh => h2 (ha.mpr hh)
      simp [h1, h1', h2, h2']

/-- Witness for C9: two states differing in an unrelated defined name agree
on the two predicates and contribute identical items. -/
theorem c9_output_determined_by_two_flags_witness :
    (("__ANDROID__" ∈ ["SOME_OTHER_FLAG"]) ↔ ("__ANDROID__" ∈ ([] : List String))) ∧
      (("KMP_PROCESS_SYS_H" ∈ ["SOME_OTHER_FLAG"]) ↔
        ("KMP_PROCESS_SYS_H" ∈ ([] : List String))) ∧
      (includeHeader ["SOME_OTHER_FLAG"]).2 = (includeHeader ([] : List String)).2 :=
  ⟨by decide, by decide,
    c9_output_determined_by_two_flags ["SOME_OTHER_FLAG"] [] (by decide) (by decide)⟩

/-- C10: an inclusion introduces at most two names: it defines
`KMP_PROCESS_SYS_H` when not yet defined and otherwise leaves the
defined-name state untouched, and it contributes the single declaration of
`__SYS_pipe2` exactly when `__ANDROID__` is defined and the guard was not yet
defined; it contributes and changes nothing else. -/
theorem c10_at_most_two_names (defs : List String) :
    (includeHeader defs).1 =
      (if "KMP_PROCESS_SYS_H" ∈ defs then defs else "KMP_PROCESS_SYS_H" :: defs) ∧
      (includeHeader defs).2 =
        (if "KMP_PROCESS_SYS_H" ∉ defs ∧ "__ANDROID__" ∈ defs
          then [TUItem.funDecl pipe2Decl] else []) := by
  rw [includeHeader_eq]
  by_cases hg : "KMP_PROCESS_SYS_H" ∈ defs <;>
    by_cases ha : "__ANDROID__" ∈ defs <;>
      simp [hg, ha]
